import Mathlib

/-!
# Verification of the HR query-resolution pipeline (`hr_query_graph.py`)

Shallow embedding of the LangGraph pipeline in `src/hr_query_graph.py`:
the graph state, the six node functions, the two routing functions, and
the orchestrated run. External backends (the classification LLM, the
retrieval service, the generation LLM) are modelled as run inputs: each
run fixes what the backends would return. Python values that flow in
from the classification backend are untyped, so those state fields are
modelled with a small JSON-value type with Python truthiness.

Not modelled: wall-clock timing (`start_time` / `response_time_ms`),
the `messages` history, prompt text sent to the backends, and console
printing in `log_analytics` — no claim depends on them.
-/

/-- A dynamic (JSON-ish) Python value, as stored into the graph state by
`classify_query` from the backend's parsed JSON. -/
inductive JValue where
  | jnull : JValue
  | jbool : Bool → JValue
  | jstr : String → JValue
  | jnum : Int → JValue
  deriving DecidableEq, Repr

/-- Python truthiness of a `JValue` (`if x:`). -/
def JValue.truthy : JValue → Bool
  | .jnull => false
  | .jbool b => b
  | .jstr s => s ≠ ""
  | .jnum n => n ≠ 0

/-- Python `x or y` on a dynamic value (returns `x` when truthy, else `y`). -/
def pyOr (x y : JValue) : JValue := if x.truthy then x else y

/-- Python `x == "s"` for a dynamic value against a string constant
(the `str`-valued enums in the source compare equal to their values). -/
def JValue.eqStr : JValue → String → Bool
  | .jstr t, s => t = s
  | _, _ => false

/-- Python `max(a, b)` on exact rationals (returns the first argument on ties). -/
def pymax (a b : ℚ) : ℚ := if b > a then b else a

/-- Python `round(q, 3)`: round to 3 decimal places, ties to even
(the source rounds binary floats; on the exact decimal reading used here
the mode only matters at exact ties, which no claim exercises). -/
def pyRound3 (q : ℚ) : ℚ :=
  let m := q * 1000
  let f : ℤ := ⌊m⌋
  let r := m - (f : ℚ)
  let n : ℤ :=
    if r > 1/2 then f + 1
    else if r < 1/2 then f
    else if f % 2 = 0 then f else f + 1
  (n : ℚ) / 1000

/-- One record of `state["retrieved_docs"]` as built by `retrieve_documents`. -/
structure RetrievedDoc where
  content : String
  source : String
  category : String
  score : ℚ
  deriving DecidableEq, Repr

/-- One result from `similarity_search_with_score(query, k=6)`: the document
text, its effective `source` metadata (the string `"Unknown"` standing in when
the metadata key is absent), its `category` metadata, and the distance. -/
structure SearchResult where
  content : String
  source : String
  category : String
  distance : ℚ
  deriving DecidableEq, Repr

/-- The graph state `HRGraphState` (modelled fields; see module comment). -/
structure HRGraphState where
  session_id : String
  employee_id : String
  department : String
  role : String
  query : String
  query_category : JValue
  query_intent : JValue
  retrieved_docs : List RetrievedDoc
  context : String
  response : String
  confidence_score : ℚ
  sources : List String
  should_escalate : JValue
  escalation_type : JValue
  escalation_reason : JValue
  deriving DecidableEq, Repr

/-- The JSON object parsed from the classification backend's content:
each of the five expected keys may be present (with any JSON value) or
absent, and unexpected extra keys are irrelevant to `.get`. -/
structure ParsedClassification where
  category : Option JValue
  intent : Option JValue
  escalate : Option JValue
  escalation_reason : Option JValue
  escalation_type : Option JValue
  deriving DecidableEq, Repr

/-- What the classification backend call does on a given run:
`invokeError` models `llm.invoke` raising (this happens outside the
`try` block in the source), `parseFailure` models content on which the
JSON extraction in the `try` block raises, `parsedNonObject` models
content that parses to a non-object JSON value (so the later `.get`
attribute accesses, outside the `try`, raise), and `parsed` gives the
parsed object. -/
inductive ClassifierOutcome where
  | invokeError : String → ClassifierOutcome
  | parseFailure : ClassifierOutcome
  | parsedNonObject : ClassifierOutcome
  | parsed : ParsedClassification → ClassifierOutcome
  deriving DecidableEq, Repr

/-- Node 1, `classify_query`: writes the classifier's answer into the state.
An uncaught Python exception is modelled as `Except.error`. On a caught
parse failure the source substitutes the fallback dict
`category="unknown", intent="Employee query", escalate=False,
escalation_reason=None, escalation_type=None` and then runs the same
field assignments (`result.get(...)`, with `or ""` on reason/type). -/
def classify_query (s : HRGraphState) (o : ClassifierOutcome) :
    Except String HRGraphState :=
  match o with
  | .invokeError msg => .error msg
  | .parsedNonObject => .error "AttributeError"
  | .parseFailure =>
      .ok { s with
        query_category := .jstr "unknown"
        query_intent := .jstr "Employee query"
        should_escalate := .jbool false
        escalation_reason := .jstr ""
        escalation_type := .jstr "" }
  | .parsed r =>
      .ok { s with
        query_category := r.category.getD (.jstr "unknown")
        query_intent := r.intent.getD (.jstr "")
        should_escalate := r.escalate.getD (.jbool false)
        escalation_reason := pyOr (r.escalation_reason.getD .jnull) (.jstr "")
        escalation_type := pyOr (r.escalation_type.getD .jnull) (.jstr "") }

/-- One iteration of the result loop in `retrieve_documents`: keep the entry
when `1 - score > 0`, recording its rounded similarity, and append its source
to `sources` unless already seen. -/
def surviveStep (acc : List RetrievedDoc × List String) (r : SearchResult) :
    List RetrievedDoc × List String :=
  let similarity := 1 - r.distance
  if similarity > 0 then
    (acc.1 ++ [⟨r.content, r.source, r.category, pyRound3 similarity⟩],
     if r.source ∈ acc.2 then acc.2 else acc.2 ++ [r.source])
  else acc

/-- The fractional digits of a 3-decimal value, trailing zeros trimmed
(`fr` is the value's thousandths part, below 1000). -/
def fracDigits (fr : ℕ) : String :=
  if fr = 0 then "0"
  else if fr % 10 ≠ 0 then
    (if fr < 10 then "00" else if fr < 100 then "0" else "") ++ toString fr
  else if fr % 100 ≠ 0 then
    (if fr < 100 then "0" else "") ++ toString (fr / 10)
  else toString (fr / 100)

/-- Decimal rendering of a rounded score for the context header. The source
interpolates a Python float repr; the exact text is not claim-relevant, only
that the context is empty iff no entry survived. -/
def decimalRepr3 (q : ℚ) : String :=
  let m : ℤ := ⌊q * 1000⌋
  let sign := if m < 0 then "-" else ""
  let n := m.natAbs
  sign ++ toString (n / 1000) ++ "." ++ fracDigits (n % 1000)

/-- One element of `context_parts` (1-based index `i`). -/
def contextPart (i : ℕ) (d : RetrievedDoc) : String :=
  "[Source " ++ toString i ++ ": " ++ d.source ++ " | Relevance: " ++
    decimalRepr3 d.score ++ "]\n" ++ d.content

/-- Node 2, `retrieve_documents`: filters the search results by positive
similarity, builds `retrieved_docs`, the deduplicated `sources`, and the
context string from the top 4 surviving entries. -/
def retrieve_documents (s : HRGraphState) (results : List SearchResult) :
    HRGraphState :=
  let acc := results.foldl surviveStep ([], [])
  let parts := (acc.1.take 4).enum.map (fun p => contextPart (p.1 + 1) p.2)
  { s with
    retrieved_docs := acc.1
    context := if parts = [] then "" else String.intercalate "\n\n---\n\n" parts
    sources := acc.2 }

/-- Node 3, `generate_response`: stores the generation backend's reply.
The prompt (grounded when `context` is non-empty, degraded otherwise) only
shapes the backend's answer, which is a run input here. -/
def generate_response (s : HRGraphState) (generation : String) : HRGraphState :=
  { s with response := generation }

/-- The mean of the scores of the first (up to) 3 retrieved docs, as computed
in `assess_confidence`. -/
def avgTop3 (docs : List RetrievedDoc) : ℚ :=
  ((docs.take 3).map (·.score)).sum / (min 3 docs.length : ℚ)

/-- Node 4, `assess_confidence`: empty evidence gives confidence 0.2 and
forces a policy-gap escalation unless already escalating; otherwise the
confidence is `round(max(0.75, avg of top-3 scores), 3)` and escalation is
switched off. -/
def assess_confidence (s : HRGraphState) : HRGraphState :=
  if s.retrieved_docs = [] then
    if ¬ s.should_escalate.truthy then
      { s with
        confidence_score := 0.2
        should_escalate := .jbool true
        escalation_type := .jstr "policy_gap"
        escalation_reason := .jstr "No relevant policy documents found" }
    else { s with confidence_score := 0.2 }
  else
    { s with
      confidence_score := pyRound3 (pymax 0.75 (avgTop3 s.retrieved_docs))
      should_escalate := .jbool false }

/-- Python `str.upper()` (character-wise uppercasing; on the ASCII
session ids in play this agrees with `Char.toUpper` mapping). -/
def strUpper (s : String) : String := ⟨s.data.map Char.toUpper⟩

/-- The escalation notice chosen by `escalation_messages.get` for a stored
escalation type; any unrecognized value falls back to the generic notice. -/
def noticeFor : JValue → String
  | .jstr "sensitive" =>
      "⚠️ **This query involves a sensitive HR matter** and requires direct HR team involvement."
  | .jstr "complex" =>
      "ℹ️ **This query involves a complex process** that may require personalized HR guidance."
  | .jstr "policy_gap" =>
      "📋 **No specific policy was found** in our current documentation for this query."
  | .jstr "low_confidence" =>
      "💡 **This response may need verification** by an HR specialist."
  | _ => "ℹ️ This query has been flagged for HR review."

/-- The fixed middle text of the escalation footer (follow-up promise and
contact address). -/
def footerMid : String :=
  "\n\n**Your query has been escalated to the HR team.** An HR representative will reach out within 1-2 business days.\n\nFor urgent matters, please contact HR directly at: hr@company.com\n\n"

/-- The reference-code line of the escalation footer. -/
def refCodePart (sid : String) : String :=
  "*Reference ID: " ++ strUpper (sid.take 8) ++ "*"

/-- The `escalation_footer` f-string of `handle_escalation`. -/
def escalationFooter (ty : JValue) (sid : String) : String :=
  "\n\n---\n" ++ noticeFor ty ++ footerMid ++ refCodePart sid

/-- Node 5, `handle_escalation`: appends the footer to a non-empty prior
response, or attaches it to a short acknowledgment. -/
def handle_escalation (s : HRGraphState) : HRGraphState :=
  let footer := escalationFooter s.escalation_type s.session_id
  if s.response ≠ "" then { s with response := s.response ++ footer }
  else { s with response := "Thank you for your query. " ++ footer }

/-- Node 6, `log_analytics`: computes `response_time_ms` and prints the
analytics record; neither wall-clock timing nor printing is modelled, so on
the modelled fields this node is the identity. -/
def log_analytics (s : HRGraphState) : HRGraphState := s

/-- Routing after classification: escalate immediately only when the state
is escalating with type `sensitive`. -/
def route_after_classification (s : HRGraphState) : String :=
  if s.should_escalate.truthy && s.escalation_type.eqStr "sensitive" then
    "handle_escalation"
  else "retrieve_documents"

/-- Routing after confidence assessment. -/
def route_after_confidence (s : HRGraphState) : String :=
  if s.should_escalate.truthy then "handle_escalation" else "log_analytics"

/-- One run's inputs: the initial-state fields of `process_hr_query` plus
what each external backend returns on this run. -/
structure RunInput where
  session_id : String
  employee_id : String
  department : String
  role : String
  query : String
  classifier : ClassifierOutcome
  retrieval : List SearchResult
  generation : String
  deriving Repr

/-- The initial `HRGraphState` built by `process_hr_query`. -/
def initialState (inp : RunInput) : HRGraphState :=
  { session_id := inp.session_id
    employee_id := inp.employee_id
    department := inp.department
    role := inp.role
    query := inp.query
    query_category := .jstr ""
    query_intent := .jstr ""
    retrieved_docs := []
    context := ""
    response := ""
    confidence_score := 0
    sources := []
    should_escalate := .jbool false
    escalation_type := .jstr ""
    escalation_reason := .jstr "" }

/-- The compiled graph of `build_hr_graph`, run on one input: the fixed
edges and the two string-keyed conditional edges, together with the list of
node names executed in order. An uncaught exception aborts the run. -/
def runPipeline (inp : RunInput) :
    Except String (HRGraphState × List String) :=
  match classify_query (initialState inp) inp.classifier with
  | .error e => .error e
  | .ok s1 =>
    if route_after_classification s1 = "handle_escalation" then
      let s2 := handle_escalation s1
      let s3 := log_analytics s2
      .ok (s3, ["classify_query", "handle_escalation", "log_analytics"])
    else
      let s2 := retrieve_documents s1 inp.retrieval
      let s3 := generate_response s2 inp.generation
      let s4 := assess_confidence s3
      if route_after_confidence s4 = "handle_escalation" then
        let s5 := handle_escalation s4
        let s6 := log_analytics s5
        .ok (s6, ["classify_query", "retrieve_documents", "generate_response",
                  "assess_confidence", "handle_escalation", "log_analytics"])
      else
        let s5 := log_analytics s4
        .ok (s5, ["classify_query", "retrieve_documents", "generate_response",
                  "assess_confidence", "log_analytics"])

/-- The result dict returned by `process_hr_query`. -/
structure QueryResult where
  session_id : String
  query : String
  response : String
  category : JValue
  confidence : ℚ
  escalated : JValue
  escalation_type : JValue
  sources : List String
  deriving DecidableEq, Repr

/-- `process_hr_query`: generates a session id when none (or a falsy one) is
supplied, builds the initial state, runs the graph, and projects the result
dict. `freshToken` models `str(uuid.uuid4())`. -/
def process_hr_query (query employee_id department role : String)
    (session_id : Option String) (freshToken : String)
    (classifier : ClassifierOutcome) (retrieval : List SearchResult)
    (generation : String) : Except String QueryResult :=
  let sid := match session_id with
    | some s => if s = "" then freshToken else s
    | none => freshToken
  let inp : RunInput :=
    { session_id := sid, employee_id := employee_id, department := department
      role := role, query := query, classifier := classifier
      retrieval := retrieval, generation := generation }
  match runPipeline inp with
  | .error e => .error e
  | .ok (f, _) =>
      .ok { session_id := sid
            query := query
            response := f.response
            category := f.query_category
            confidence := f.confidence_score
            escalated := f.should_escalate
            escalation_type := f.escalation_type
            sources := f.sources }

/-- The twelve values of the closed `QueryCategory` enum. -/
def closedCategories : List JValue :=
  [.jstr "leave_policy", .jstr "reimbursement", .jstr "insurance",
   .jstr "onboarding", .jstr "payroll", .jstr "performance",
   .jstr "code_of_conduct", .jstr "remote_work", .jstr "benefits",
   .jstr "it_policy", .jstr "general_policy", .jstr "unknown"]

/-- The four values of the `EscalationType` enum. -/
def escKinds : List JValue :=
  [.jstr "complex", .jstr "policy_gap", .jstr "sensitive", .jstr "low_confidence"]

/-- The entries of a result list surviving the positive-similarity filter. -/
def survivors (results : List SearchResult) : List SearchResult :=
  results.filter (fun r => decide ((1 : ℚ) - r.distance > 0))

/-- The `retrieved_docs` record built from one surviving result. -/
def mkDoc (r : SearchResult) : RetrievedDoc :=
  ⟨r.content, r.source, r.category, pyRound3 (1 - r.distance)⟩

/-- The incremental source-deduplication loop of `retrieve_documents`,
started from an accumulator. -/
def dedupAppend (acc : List String) (l : List String) : List String :=
  l.foldl (fun a x => if x ∈ a then a else a ++ [x]) acc

/-- Modelled from the spec side for comparison: the deduplicated,
order-preserving (first-seen) list of a list of source identifiers, in the
words of the spec. -/
def specFirstSeenDedup : List String → List String
  | [] => []
  | x :: xs => x :: specFirstSeenDedup (xs.filter (fun y => decide (y ≠ x)))
  termination_by l => l.length
  decreasing_by
    exact Nat.lt_succ_of_le (List.length_filter_le _ _)

/-- The final state of a successful run (the initial state as a placeholder
on an aborted run). -/
def pipeFinal (inp : RunInput) : HRGraphState :=
  match runPipeline inp with
  | .ok p => p.1
  | .error _ => initialState inp

/-- The node trace of a successful run. -/
def pipeTrace (inp : RunInput) : List String :=
  match runPipeline inp with
  | .ok p => p.2
  | .error _ => []

/-- Concrete run: end-to-end scenario 1 of the spec — benign classification,
three retrieval matches at distances 0.1, 0.2, 0.15 (similarities 0.9, 0.8,
0.85). -/
def scn1 : RunInput :=
  { session_id := "sess-1234-abcd", employee_id := "EMP001"
    department := "Engineering", role := "employee"
    query := "How many casual leaves am I entitled to per year?"
    classifier := .parseFailure
    retrieval := [⟨"doc a", "leave.md", "leave_policy", 1/10⟩,
                  ⟨"doc b", "leave.md", "leave_policy", 2/10⟩,
                  ⟨"doc c", "handbook.md", "leave_policy", 3/20⟩]
    generation := "You get 12 casual leaves." }

/-- Concrete run: retrieval returns zero matches, classification benign. -/
def scnNoDocs : RunInput :=
  { session_id := "sess-5678-efgh", employee_id := "EMP002"
    department := "Sales", role := "employee"
    query := "What is the policy on sabbaticals?"
    classifier := .parseFailure
    retrieval := []
    generation := "General guidance only." }

/-- Concrete run: the classifier flags a sensitive escalation. -/
def scnSensitive : RunInput :=
  { session_id := "sess-9abc-ijkl", employee_id := "EMP003"
    department := "Marketing", role := "employee"
    query := "I want to raise a complaint against my manager."
    classifier := .parsed ⟨some (.jstr "general_policy"),
      some (.jstr "Raise a grievance"), some (.jbool true),
      some (.jstr "Grievance"), some (.jstr "sensitive")⟩
    retrieval := [⟨"doc a", "conduct.md", "code_of_conduct", 1/10⟩]
    generation := "SHOULD NEVER BE CALLED" }

/-- Concrete run: the classifier returns `escalation_type = "sensitive"` but
`escalate = false`. -/
def scnSensitiveNoFlag : RunInput :=
  { scnSensitive with
    classifier := .parsed ⟨some (.jstr "general_policy"),
      some (.jstr "Raise a grievance"), some (.jbool false),
      none, some (.jstr "sensitive")⟩ }

/-- Concrete run: the classifier sets `escalate = true` with a `null`
escalation type, and retrieval finds nothing. -/
def scnEscalateNullType : RunInput :=
  { session_id := "sess-def0-mnop", employee_id := "EMP004"
    department := "Finance", role := "manager"
    query := "Handle my unusual case."
    classifier := .parsed ⟨some (.jstr "general_policy"),
      some (.jstr "Unusual case"), some (.jbool true), none, none⟩
    retrieval := []
    generation := "Some answer." }

/-- Concrete run: the classifier sets `escalate = true` with type
`"complex"`, and retrieval finds nothing. -/
def scnEscalateComplex : RunInput :=
  { scnEscalateNullType with
    classifier := .parsed ⟨some (.jstr "general_policy"),
      some (.jstr "Unusual case"), some (.jbool true),
      some (.jstr "Needs HR judgment"), some (.jstr "complex")⟩ }

/-- Concrete run: an empty query and a role outside the closed role set. -/
def scnEmptyQuery : RunInput :=
  { session_id := "sess-1122-qrst", employee_id := "EMP005"
    department := "General", role := "not_a_role"
    query := ""
    classifier := .parseFailure
    retrieval := []
    generation := "" }

/-- Concrete classifier object: well-formed JSON with an off-enum category
and a string-valued escalate field. -/
def banana : ParsedClassification :=
  ⟨some (.jstr "banana"), some (.jstr "Do something"), some (.jstr "yes"),
   none, none⟩

/-- Concrete retrieval batch: a duplicated source, a second source, and one
entry with non-positive similarity. -/
def mixedResults : List SearchResult :=
  [⟨"chunk 1", "leave.md", "leave_policy", 1/10⟩,
   ⟨"chunk 2", "leave.md", "leave_policy", 3/10⟩,
   ⟨"chunk 3", "handbook.md", "general_policy", 1/2⟩,
   ⟨"chunk 4", "stale.md", "general_policy", 3/2⟩]

/-- Concrete retrieval batch with no surviving entry. -/
def deadResults : List SearchResult :=
  [⟨"chunk 5", "old.md", "general_policy", 1⟩,
   ⟨"chunk 6", "older.md", "general_policy", 2⟩]

/-- A concrete mid-pipeline state: a generated response is present and a
complex escalation is pending. -/
def midState : HRGraphState :=
  { session_id := "abcd1234-ef56-7890", employee_id := "EMP006"
    department := "Legal", role := "employee"
    query := "How do I transfer departments?"
    query_category := .jstr "general_policy"
    query_intent := .jstr "Department transfer"
    retrieved_docs := []
    context := ""
    response := "Here is the transfer process."
    confidence_score := 0
    sources := []
    should_escalate := .jbool true
    escalation_type := .jstr "complex"
    escalation_reason := .jstr "Multi-step process" }

/-- The state written by `classify_query` on the fallback path of the
zero-matches scenario. -/
def scnNoDocsS1 : HRGraphState :=
  { initialState scnNoDocs with
    query_category := .jstr "unknown", query_intent := .jstr "Employee query"
    should_escalate := .jbool false, escalation_reason := .jstr ""
    escalation_type := .jstr "" }

/-- The state written by `classify_query` in the sensitive scenario. -/
def scnSensitiveS1 : HRGraphState :=
  { initialState scnSensitive with
    query_category := .jstr "general_policy"
    query_intent := .jstr "Raise a grievance"
    should_escalate := .jbool true
    escalation_reason := .jstr "Grievance"
    escalation_type := .jstr "sensitive" }

/-- The state written by `classify_query` in the complex-escalation
scenario. -/
def scnEscalateComplexS1 : HRGraphState :=
  { initialState scnEscalateComplex with
    query_category := .jstr "general_policy"
    query_intent := .jstr "Unusual case"
    should_escalate := .jbool true
    escalation_reason := .jstr "Needs HR judgment"
    escalation_type := .jstr "complex" }

/-- `classify_query` only writes the classification fields. -/
theorem classify_query_preserves (s : HRGraphState) (o : ClassifierOutcome)
    (s' : HRGraphState) (hok : classify_query s o = .ok s') :
    s'.sources = s.sources ∧ s'.response = s.response ∧
    s'.retrieved_docs = s.retrieved_docs ∧ s'.session_id = s.session_id := by
  cases o with
  | invokeError msg => cases hok
  | parsedNonObject => cases hok
  | parseFailure => cases hok; exact ⟨rfl, rfl, rfl, rfl⟩
  | parsed r => cases hok; exact ⟨rfl, rfl, rfl, rfl⟩

/-- `retrieve_documents` leaves the escalation fields, the response and the
session id unchanged. -/
theorem retrieve_documents_preserves (s : HRGraphState)
    (results : List SearchResult) :
    (retrieve_documents s results).should_escalate = s.should_escalate ∧
    (retrieve_documents s results).escalation_type = s.escalation_type ∧
    (retrieve_documents s results).escalation_reason = s.escalation_reason ∧
    (retrieve_documents s results).response = s.response ∧
    (retrieve_documents s results).session_id = s.session_id := by
  simp [retrieve_documents]

/-- `generate_response` only writes the response. -/
theorem generate_response_preserves (s : HRGraphState) (g : String) :
    (generate_response s g).retrieved_docs = s.retrieved_docs ∧
    (generate_response s g).should_escalate = s.should_escalate ∧
    (generate_response s g).escalation_type = s.escalation_type ∧
    (generate_response s g).escalation_reason = s.escalation_reason ∧
    (generate_response s g).sources = s.sources ∧
    (generate_response s g).session_id = s.session_id := by
  simp [generate_response]

/-- `assess_confidence` leaves the evidence, response, sources and session
id unchanged. -/
theorem assess_confidence_preserves (s : HRGraphState) :
    (assess_confidence s).retrieved_docs = s.retrieved_docs ∧
    (assess_confidence s).response = s.response ∧
    (assess_confidence s).sources = s.sources ∧
    (assess_confidence s).session_id = s.session_id := by
  unfold assess_confidence
  split
  · split <;> simp
  · simp

/-- On non-empty evidence, `assess_confidence` switches escalation off and
sets the floored, rounded confidence. -/
theorem assess_confidence_with_docs (s : HRGraphState)
    (h : s.retrieved_docs ≠ []) :
    (assess_confidence s).should_escalate = .jbool false ∧
    (assess_confidence s).confidence_score =
      pyRound3 (pymax 0.75 (avgTop3 s.retrieved_docs)) := by
  unfold assess_confidence
  simp [h]

/-- On empty evidence, `assess_confidence` sets confidence 0.2, leaves the
state escalating, and writes the policy-gap escalation exactly when the
state was not already escalating. -/
theorem assess_confidence_empty_docs (s : HRGraphState)
    (h : s.retrieved_docs = []) :
    (assess_confidence s).confidence_score = 0.2 ∧
    (assess_confidence s).should_escalate.truthy = true ∧
    (s.should_escalate.truthy = false →
      (assess_confidence s).should_escalate = .jbool true ∧
      (assess_confidence s).escalation_type = .jstr "policy_gap" ∧
      (assess_confidence s).escalation_reason =
        .jstr "No relevant policy documents found") ∧
    (s.should_escalate.truthy = true →
      (assess_confidence s).should_escalate = s.should_escalate ∧
      (assess_confidence s).escalation_type = s.escalation_type ∧
      (assess_confidence s).escalation_reason = s.escalation_reason) := by
  unfold assess_confidence
  by_cases he : s.should_escalate.truthy = true
  · simp [h, he]
  · have he2 : s.should_escalate.truthy = false := by simpa using he
    simp [h, he2]
    rfl

/-- `handle_escalation` only writes the response. -/
theorem handle_escalation_preserves (s : HRGraphState) :
    (handle_escalation s).retrieved_docs = s.retrieved_docs ∧
    (handle_escalation s).confidence_score = s.confidence_score ∧
    (handle_escalation s).should_escalate = s.should_escalate ∧
    (handle_escalation s).escalation_type = s.escalation_type ∧
    (handle_escalation s).escalation_reason = s.escalation_reason ∧
    (handle_escalation s).sources = s.sources := by
  unfold handle_escalation
  split <;> simp

/-- The docs component of the retrieval loop: one record per surviving
entry, in order. -/
theorem surviveFold_fst (rs : List SearchResult) :
    ∀ docs srcs, (List.foldl surviveStep (docs, srcs) rs).1 =
      docs ++ (survivors rs).map mkDoc := by
  induction rs with
  | nil => intro docs srcs; simp [survivors]
  | cons r rs ih =>
    intro docs srcs
    by_cases h : (1 : ℚ) - r.distance > 0
    · have h' : r.distance < 1 := by linarith
      simp [List.foldl_cons, surviveStep, h, survivors, mkDoc, ih, List.filter_cons, h']
    · have h' : ¬ r.distance < 1 := by push_neg at h ⊢; linarith
      simp [List.foldl_cons, surviveStep, h, survivors, mkDoc, ih, List.filter_cons, h']

/-- The sources component of the retrieval loop is the incremental
deduplication of the surviving sources. -/
theorem surviveFold_snd (rs : List SearchResult) :
    ∀ docs srcs, (List.foldl surviveStep (docs, srcs) rs).2 =
      dedupAppend srcs ((survivors rs).map (fun r => r.source)) := by
  induction rs with
  | nil => intro docs srcs; simp [survivors, dedupAppend]
  | cons r rs ih =>
    intro docs srcs
    by_cases h : (1 : ℚ) - r.distance > 0
    · have h' : r.distance < 1 := by linarith
      simp [List.foldl_cons, surviveStep, h, survivors, dedupAppend, ih, List.filter_cons, h']
    · have h' : ¬ r.distance < 1 := by push_neg at h ⊢; linarith
      simp [List.foldl_cons, surviveStep, h, survivors, dedupAppend, ih, List.filter_cons, h']

/-- The incremental deduplication agrees with the first-seen
deduplication of the spec. -/
theorem dedupAppend_eq_spec (l : List String) :
    ∀ acc, dedupAppend acc l =
      acc ++ specFirstSeenDedup (l.filter (fun y => decide (y ∉ acc))) := by
  induction l with
  | nil => intro acc; simp [dedupAppend, specFirstSeenDedup]
  | cons x l ih =>
    intro acc
    by_cases hx : x ∈ acc
    · have : dedupAppend acc (x :: l) = dedupAppend acc l := by
        simp [dedupAppend, hx]
      rw [this, ih]
      simp [List.filter_cons, hx]
    · have h1 : dedupAppend acc (x :: l) = dedupAppend (acc ++ [x]) l := by
        simp [dedupAppend, hx]
      rw [h1, ih]
      have h2 : l.filter (fun y => decide (y ∉ acc ++ [x])) =
          (l.filter (fun y => decide (y ∉ acc))).filter (fun y => decide (y ≠ x)) := by
        rw [List.filter_filter]
        apply List.filter_congr
        intro y _
        simp [List.mem_append, not_or, and_comm]
      have h3 : specFirstSeenDedup ((x :: l).filter (fun y => decide (y ∉ acc))) =
          x :: specFirstSeenDedup ((l.filter (fun y => decide (y ∉ acc))).filter
            (fun y => decide (y ≠ x))) := by
        simp [List.filter_cons, hx, specFirstSeenDedup]
      rw [h3, ← h2]
      simp

/-- First-seen deduplication only keeps elements of its input. -/
theorem mem_specFirstSeenDedup (l : List String) :
    ∀ y, y ∈ specFirstSeenDedup l → y ∈ l := by
  induction l using specFirstSeenDedup.induct with
  | case1 => intro y hy; simp [specFirstSeenDedup] at hy
  | case2 x xs ih =>
    intro y hy
    rw [specFirstSeenDedup] at hy
    rcases List.mem_cons.mp hy with h | h
    · simp [h]
    · have := ih y h
      simp only [List.mem_filter] at this
      simp [this.1]

/-- First-seen deduplication yields a list without duplicates. -/
theorem specFirstSeenDedup_nodup (l : List String) :
    (specFirstSeenDedup l).Nodup := by
  induction l using specFirstSeenDedup.induct with
  | case1 => simp [specFirstSeenDedup]
  | case2 x xs ih =>
    rw [specFirstSeenDedup]
    refine List.nodup_cons.mpr ⟨?_, ih⟩
    intro hx
    have := mem_specFirstSeenDedup _ _ hx
    simp [List.mem_filter] at this

/-- Claim C1: in every run in which `assess_confidence` executes on a
non-empty evidence list, the final confidence is `max(0.75, mean of the
scores of up to the first 3 evidence entries)` rounded to 3 decimals, and
`should_escalate` is set to `False`. -/
theorem run_evidence_confidence_floor (inp : RunInput) (f : HRGraphState)
    (t : List String)
    (hrun : runPipeline inp = Except.ok (f, t))
    (ha : "assess_confidence" ∈ t)
    (hne : f.retrieved_docs ≠ []) :
    f.confidence_score = pyRound3 (pymax 0.75 (avgTop3 f.retrieved_docs)) ∧
    f.should_escalate = JValue.jbool false := by
  unfold runPipeline at hrun
  cases hcq : classify_query (initialState inp) inp.classifier with
  | error e => rw [hcq] at hrun; simp at hrun
  | ok s1 =>
    rw [hcq] at hrun
    simp only at hrun
    split at hrun
    · simp only [Except.ok.injEq, Prod.mk.injEq] at hrun
      obtain ⟨hf, ht⟩ := hrun
      subst ht
      exact absurd ha (by decide)
    · set s3 := generate_response (retrieve_documents s1 inp.retrieval) inp.generation with hs3
      split at hrun
      case isTrue hcond =>
        simp only [Except.ok.injEq, Prod.mk.injEq] at hrun
        obtain ⟨hf, ht⟩ := hrun
        by_cases hd : s3.retrieved_docs = []
        · exfalso
          apply hne
          rw [← hf]
          show (handle_escalation (assess_confidence s3)).retrieved_docs = []
          rw [(handle_escalation_preserves _).1, (assess_confidence_preserves _).1]
          exact hd
        · exfalso
          have := (assess_confidence_with_docs s3 hd).1
          rw [route_after_confidence, this] at hcond
          simp [JValue.truthy] at hcond
      case isFalse =>
        simp only [Except.ok.injEq, Prod.mk.injEq] at hrun
        obtain ⟨hf, ht⟩ := hrun
        by_cases hd : s3.retrieved_docs = []
        · exfalso
          apply hne
          rw [← hf]
          show (assess_confidence s3).retrieved_docs = []
          rw [(assess_confidence_preserves _).1]
          exact hd
        · have h1 := assess_confidence_with_docs s3 hd
          have h2 : f.retrieved_docs = s3.retrieved_docs := by
            rw [← hf]
            exact (assess_confidence_preserves _).1
          rw [h2, ← hf]
          show (assess_confidence s3).confidence_score = _ ∧ _
          exact ⟨h1.2, h1.1⟩

/-- Witness for C1: end-to-end scenario 1 — three matches with
similarities 0.9, 0.8, 0.85 give confidence 0.85 and no escalation. -/
theorem run_evidence_confidence_floor_witness :
    runPipeline scn1 = Except.ok (pipeFinal scn1, pipeTrace scn1) ∧
    (pipeFinal scn1).confidence_score = 17/20 ∧
    (pipeFinal scn1).should_escalate = JValue.jbool false := by
  have hrun : runPipeline scn1 = Except.ok (pipeFinal scn1, pipeTrace scn1) := by
    norm_num +decide [scn1, pipeFinal, pipeTrace, runPipeline, classify_query,
      initialState, route_after_classification, retrieve_documents, surviveStep,
      generate_response, assess_confidence, route_after_confidence, log_analytics,
      JValue.truthy, JValue.eqStr, avgTop3, pyRound3, pymax, contextPart,
      decimalRepr3, fracDigits, List.enum, List.enumFrom]
  have htr : pipeTrace scn1 = ["classify_query", "retrieve_documents",
      "generate_response", "assess_confidence", "log_analytics"] := by
    norm_num +decide [scn1, pipeTrace, runPipeline, classify_query,
      initialState, route_after_classification, retrieve_documents, surviveStep,
      generate_response, assess_confidence, route_after_confidence, log_analytics,
      JValue.truthy, JValue.eqStr, avgTop3, pyRound3, pymax, contextPart,
      decimalRepr3, fracDigits, List.enum, List.enumFrom]
  have hfd : (pipeFinal scn1).retrieved_docs =
      [⟨"doc a", "leave.md", "leave_policy", 9/10⟩,
       ⟨"doc b", "leave.md", "leave_policy", 4/5⟩,
       ⟨"doc c", "handbook.md", "leave_policy", 17/20⟩] := by
    norm_num +decide [scn1, pipeFinal, runPipeline, classify_query,
      initialState, route_after_classification, retrieve_documents, surviveStep,
      generate_response, assess_confidence, route_after_confidence, log_analytics,
      JValue.truthy, JValue.eqStr, avgTop3, pyRound3, pymax, contextPart,
      decimalRepr3, fracDigits, List.enum, List.enumFrom]
  have h := run_evidence_confidence_floor scn1 (pipeFinal scn1) (pipeTrace scn1)
    hrun (by rw [htr]; decide) (by rw [hfd]; decide)
  refine ⟨hrun, ?_, h.2⟩
  rw [h.1, hfd]
  norm_num [pyRound3, pymax, avgTop3]

/-- Claim C2: in every run in which `assess_confidence` executes on an
empty evidence list, the final confidence is 0.2; when the state was not
escalating on entry the policy-gap escalation is written, and when it was
already escalating the pre-existing type and reason are untouched. -/
theorem run_empty_evidence_policy_gap (inp : RunInput) (s1 f : HRGraphState)
    (t : List String)
    (hcls : classify_query (initialState inp) inp.classifier = .ok s1)
    (hrun : runPipeline inp = Except.ok (f, t))
    (ha : "assess_confidence" ∈ t)
    (hempty : f.retrieved_docs = []) :
    f.confidence_score = 0.2 ∧
    (s1.should_escalate.truthy = false →
      f.should_escalate = .jbool true ∧
      f.escalation_type = .jstr "policy_gap" ∧
      f.escalation_reason = .jstr "No relevant policy documents found") ∧
    (s1.should_escalate.truthy = true →
      f.should_escalate = s1.should_escalate ∧
      f.escalation_type = s1.escalation_type ∧
      f.escalation_reason = s1.escalation_reason) := by
  unfold runPipeline at hrun
  rw [hcls] at hrun
  simp only at hrun
  split at hrun
  · simp only [Except.ok.injEq, Prod.mk.injEq] at hrun
    obtain ⟨hf, ht⟩ := hrun
    subst ht
    exact absurd ha (by decide)
  · set s3 := generate_response (retrieve_documents s1 inp.retrieval) inp.generation with hs3
    have hpres : s3.should_escalate = s1.should_escalate ∧
        s3.escalation_type = s1.escalation_type ∧
        s3.escalation_reason = s1.escalation_reason := by
      rw [hs3]
      rw [(generate_response_preserves _ _).2.1,
          (generate_response_preserves _ _).2.2.1,
          (generate_response_preserves _ _).2.2.2.1]
      exact ⟨(retrieve_documents_preserves s1 inp.retrieval).1,
        (retrieve_documents_preserves s1 inp.retrieval).2.1,
        (retrieve_documents_preserves s1 inp.retrieval).2.2.1⟩
    split at hrun
    case isTrue hcond =>
      simp only [Except.ok.injEq, Prod.mk.injEq] at hrun
      obtain ⟨hf, ht⟩ := hrun
      simp only [log_analytics] at hf
      have hd3 : s3.retrieved_docs = [] := by
        rw [← (assess_confidence_preserves s3).1,
            ← (handle_escalation_preserves (assess_confidence s3)).1, hf]
        exact hempty
      have hae := assess_confidence_empty_docs s3 hd3
      have hffields : f.confidence_score = (assess_confidence s3).confidence_score ∧
          f.should_escalate = (assess_confidence s3).should_escalate ∧
          f.escalation_type = (assess_confidence s3).escalation_type ∧
          f.escalation_reason = (assess_confidence s3).escalation_reason := by
        rw [← hf]
        exact ⟨(handle_escalation_preserves _).2.1,
          (handle_escalation_preserves _).2.2.1,
          (handle_escalation_preserves _).2.2.2.1,
          (handle_escalation_preserves _).2.2.2.2.1⟩
      refine ⟨by rw [hffields.1]; exact hae.1, ?_, ?_⟩
      · intro hesc
        have := hae.2.2.1 (by rw [hpres.1]; exact hesc)
        exact ⟨by rw [hffields.2.1]; exact this.1,
          by rw [hffields.2.2.1]; exact this.2.1,
          by rw [hffields.2.2.2]; exact this.2.2⟩
      · intro hesc
        have := hae.2.2.2 (by rw [hpres.1]; exact hesc)
        exact ⟨by rw [hffields.2.1, this.1]; exact hpres.1,
          by rw [hffields.2.2.1, this.2.1]; exact hpres.2.1,
          by rw [hffields.2.2.2, this.2.2]; exact hpres.2.2⟩
    case isFalse hcond =>
      exfalso
      simp only [Except.ok.injEq, Prod.mk.injEq] at hrun
      obtain ⟨hf, ht⟩ := hrun
      simp only [log_analytics] at hf
      have hd3 : s3.retrieved_docs = [] := by
        rw [← (assess_confidence_preserves s3).1, hf]
        exact hempty
      have hae := assess_confidence_empty_docs s3 hd3
      apply hcond
      rw [route_after_confidence]
      simp [hae.2.1]

/-- Witness for C2: zero retrieval matches give confidence 0.2 and the
policy-gap escalation. -/
theorem run_empty_evidence_policy_gap_witness :
    runPipeline scnNoDocs = Except.ok (pipeFinal scnNoDocs, pipeTrace scnNoDocs) ∧
    (pipeFinal scnNoDocs).confidence_score = 0.2 ∧
    (pipeFinal scnNoDocs).should_escalate = .jbool true ∧
    (pipeFinal scnNoDocs).escalation_type = .jstr "policy_gap" ∧
    (pipeFinal scnNoDocs).escalation_reason =
      .jstr "No relevant policy documents found" := by
  have hcls : classify_query (initialState scnNoDocs) scnNoDocs.classifier =
      .ok scnNoDocsS1 := rfl
  have hrun : runPipeline scnNoDocs =
      Except.ok (pipeFinal scnNoDocs, pipeTrace scnNoDocs) := by
    norm_num +decide [scnNoDocs, pipeFinal, pipeTrace, runPipeline, classify_query,
      initialState, route_after_classification, retrieve_documents, surviveStep,
      generate_response, assess_confidence, route_after_confidence, log_analytics,
      JValue.truthy, JValue.eqStr, avgTop3, pyRound3, pymax, contextPart,
      decimalRepr3, fracDigits, escalationFooter, noticeFor, footerMid,
      refCodePart, strUpper, handle_escalation, List.enum, List.enumFrom]
  have htr : pipeTrace scnNoDocs = ["classify_query", "retrieve_documents",
      "generate_response", "assess_confidence", "handle_escalation",
      "log_analytics"] := by
    norm_num +decide [scnNoDocs, pipeTrace, runPipeline, classify_query,
      initialState, route_after_classification, retrieve_documents, surviveStep,
      generate_response, assess_confidence, route_after_confidence, log_analytics,
      JValue.truthy, JValue.eqStr, avgTop3, pyRound3, pymax, contextPart,
      decimalRepr3, fracDigits, escalationFooter, noticeFor, footerMid,
      refCodePart, strUpper, handle_escalation, List.enum, List.enumFrom]
  have hempty : (pipeFinal scnNoDocs).retrieved_docs = [] := by
    norm_num +decide [scnNoDocs, pipeFinal, runPipeline, classify_query,
      initialState, route_after_classification, retrieve_documents, surviveStep,
      generate_response, assess_confidence, route_after_confidence, log_analytics,
      JValue.truthy, JValue.eqStr, avgTop3, pyRound3, pymax, contextPart,
      decimalRepr3, fracDigits, escalationFooter, noticeFor, footerMid,
      refCodePart, strUpper, handle_escalation, List.enum, List.enumFrom]
  have h := run_empty_evidence_policy_gap scnNoDocs scnNoDocsS1
    (pipeFinal scnNoDocs) (pipeTrace scnNoDocs) hcls hrun
    (by rw [htr]; decide) hempty
  have hfalse : scnNoDocsS1.should_escalate.truthy = false := by decide
  obtain ⟨h1, h2, h3⟩ := h.2.1 hfalse
  exact ⟨hrun, h.1, h1, h2, h3⟩

/-- Counterexample to C3 as stated: when the classifier returns
`escalation_type = "sensitive"` but `escalate = false`, the run does not
short-circuit — retrieval and generation both execute. -/
theorem sensitive_flag_without_escalate_cex :
    (∃ s1, classify_query (initialState scnSensitiveNoFlag)
        scnSensitiveNoFlag.classifier = .ok s1 ∧
      s1.escalation_type = .jstr "sensitive" ∧
      s1.should_escalate = .jbool false) ∧
    (runPipeline scnSensitiveNoFlag).map Prod.snd =
      .ok ["classify_query", "retrieve_documents", "generate_response",
           "assess_confidence", "log_analytics"] := by
  constructor
  · refine ⟨_, rfl, ?_, ?_⟩ <;> decide
  · norm_num +decide [Except.map, scnSensitiveNoFlag, scnSensitive, runPipeline, classify_query,
      initialState, route_after_classification, retrieve_documents, surviveStep,
      generate_response, assess_confidence, route_after_confidence, log_analytics,
      JValue.truthy, JValue.eqStr, pyOr, avgTop3, pyRound3, pymax, contextPart,
      decimalRepr3, fracDigits, List.enum, List.enumFrom]

/-- Claim C3 (amended: classification must flag `should_escalate` together
with `escalation_type = sensitive`): such runs route directly from
`classify_query` to `handle_escalation`; retrieval and generation never
execute, the sources list is empty, and the response contains the
sensitive-escalation notice. -/
theorem sensitive_short_circuit (inp : RunInput) (s1 f : HRGraphState)
    (t : List String)
    (hcls : classify_query (initialState inp) inp.classifier = .ok s1)
    (hesc : s1.should_escalate.truthy = true)
    (hty : s1.escalation_type = .jstr "sensitive")
    (hrun : runPipeline inp = Except.ok (f, t)) :
    t = ["classify_query", "handle_escalation", "log_analytics"] ∧
    "retrieve_documents" ∉ t ∧ "generate_response" ∉ t ∧
    f.sources = [] ∧
    ∃ a b, f.response = a ++ noticeFor (.jstr "sensitive") ++ b := by
  unfold runPipeline at hrun
  rw [hcls] at hrun
  simp only at hrun
  split at hrun
  case isTrue =>
    simp only [Except.ok.injEq, Prod.mk.injEq] at hrun
    obtain ⟨hf, ht⟩ := hrun
    simp only [log_analytics] at hf
    subst ht
    have hpres := classify_query_preserves _ _ _ hcls
    have hresp : s1.response = "" := by
      rw [hpres.2.1]; rfl
    have hsrc : s1.sources = [] := by
      rw [hpres.1]; rfl
    refine ⟨rfl, by decide, by decide, ?_, ?_⟩
    · rw [← hf, (handle_escalation_preserves s1).2.2.2.2.2]
      exact hsrc
    · refine ⟨"Thank you for your query. " ++ "\n\n---\n",
        footerMid ++ refCodePart s1.session_id, ?_⟩
      rw [← hf]
      show (handle_escalation s1).response = _
      unfold handle_escalation
      simp [hresp, escalationFooter, hty, String.append_assoc]
      rw [← String.append_assoc]
      rfl
  case isFalse hcond =>
    exfalso
    apply hcond
    unfold route_after_classification
    rw [hty]
    simp [hesc, JValue.eqStr]

/-- Witness for C3: a sensitive classification short-circuits the run. -/
theorem sensitive_short_circuit_witness :
    runPipeline scnSensitive = Except.ok (pipeFinal scnSensitive, pipeTrace scnSensitive) ∧
    pipeTrace scnSensitive = ["classify_query", "handle_escalation", "log_analytics"] ∧
    "generate_response" ∉ pipeTrace scnSensitive ∧
    (pipeFinal scnSensitive).sources = [] ∧
    (∃ a b, (pipeFinal scnSensitive).response =
      a ++ noticeFor (.jstr "sensitive") ++ b) := by
  have hcls : classify_query (initialState scnSensitive) scnSensitive.classifier =
      .ok scnSensitiveS1 := by
    show Except.ok _ = _
    simp +decide [scnSensitiveS1, scnSensitive, initialState, pyOr, JValue.truthy]
  have hrun : runPipeline scnSensitive =
      Except.ok (pipeFinal scnSensitive, pipeTrace scnSensitive) := by
    norm_num +decide [scnSensitive, pipeFinal, pipeTrace, runPipeline, classify_query,
      initialState, route_after_classification, retrieve_documents, surviveStep,
      generate_response, assess_confidence, route_after_confidence, log_analytics,
      JValue.truthy, JValue.eqStr, pyOr, avgTop3, pyRound3, pymax, contextPart,
      decimalRepr3, fracDigits, escalationFooter, noticeFor, footerMid,
      refCodePart, strUpper, handle_escalation, List.enum, List.enumFrom]
  have h := sensitive_short_circuit scnSensitive scnSensitiveS1
    (pipeFinal scnSensitive) (pipeTrace scnSensitive) hcls (by decide) (by decide) hrun
  exact ⟨hrun, h.1, h.2.2.1, h.2.2.2.1, h.2.2.2.2⟩

/-- Counterexample to C4 as stated: when the classification backend sets
`escalate = true` with a null type and retrieval finds nothing, the run
completes with `should_escalate` truthy and an empty escalation type. -/
theorem escalation_type_empty_cex :
    (runPipeline scnEscalateNullType).map
        (fun p => (p.1.should_escalate, p.1.escalation_type)) =
      .ok (.jbool true, .jstr "") ∧
    (JValue.jbool true).truthy = true ∧
    JValue.jstr "" ∉ escKinds := by
  refine ⟨?_, rfl, by decide⟩
  norm_num +decide [Except.map, scnEscalateNullType, runPipeline, classify_query,
    initialState, route_after_classification, retrieve_documents, surviveStep,
    generate_response, assess_confidence, route_after_confidence, log_analytics,
    JValue.truthy, JValue.eqStr, pyOr, avgTop3, pyRound3, pymax, contextPart,
    decimalRepr3, fracDigits, escalationFooter, noticeFor, footerMid,
    refCodePart, strUpper, handle_escalation, List.enum, List.enumFrom]

/-- Claim C4 (amended: provided classification only sets its escalate flag
together with one of the four defined escalation kinds): every completed
run with `should_escalate` true has an escalation type among the four
defined kinds, never the empty string. -/
theorem escalation_type_closed (inp : RunInput) (f : HRGraphState)
    (t : List String)
    (hwf : ∀ s1, classify_query (initialState inp) inp.classifier = .ok s1 →
      s1.should_escalate.truthy = true → s1.escalation_type ∈ escKinds)
    (hrun : runPipeline inp = Except.ok (f, t))
    (hesc : f.should_escalate.truthy = true) :
    f.escalation_type ∈ escKinds ∧ f.escalation_type ≠ .jstr "" := by
  have hne : ∀ v, v ∈ escKinds → v ≠ .jstr "" := by
    intro v hv
    fin_cases hv <;> decide
  suffices h : f.escalation_type ∈ escKinds from ⟨h, hne _ h⟩
  unfold runPipeline at hrun
  cases hcq : classify_query (initialState inp) inp.classifier with
  | error e => rw [hcq] at hrun; simp at hrun
  | ok s1 =>
    rw [hcq] at hrun
    simp only at hrun
    have hwf1 := hwf s1 hcq
    split at hrun
    case isTrue hroute =>
      simp only [Except.ok.injEq, Prod.mk.injEq] at hrun
      obtain ⟨hf, ht⟩ := hrun
      simp only [log_analytics] at hf
      have h1 : f.should_escalate = s1.should_escalate := by
        rw [← hf]; exact (handle_escalation_preserves s1).2.2.1
      have h2 : f.escalation_type = s1.escalation_type := by
        rw [← hf]; exact (handle_escalation_preserves s1).2.2.2.1
      rw [h2]
      exact hwf1 (by rw [← h1]; exact hesc)
    case isFalse =>
      set s3 := generate_response (retrieve_documents s1 inp.retrieval)
        inp.generation with hs3
      have hpres : s3.should_escalate = s1.should_escalate ∧
          s3.escalation_type = s1.escalation_type := by
        rw [hs3, (generate_response_preserves _ _).2.1,
            (generate_response_preserves _ _).2.2.1]
        exact ⟨(retrieve_documents_preserves s1 inp.retrieval).1,
          (retrieve_documents_preserves s1 inp.retrieval).2.1⟩
      split at hrun
      case isTrue hcond =>
        simp only [Except.ok.injEq, Prod.mk.injEq] at hrun
        obtain ⟨hf, ht⟩ := hrun
        simp only [log_analytics] at hf
        have hfesc : f.should_escalate = (assess_confidence s3).should_escalate := by
          rw [← hf]; exact (handle_escalation_preserves _).2.2.1
        have hfty : f.escalation_type = (assess_confidence s3).escalation_type := by
          rw [← hf]; exact (handle_escalation_preserves _).2.2.2.1
        by_cases hd : s3.retrieved_docs = []
        · have hae := assess_confidence_empty_docs s3 hd
          by_cases he3 : s3.should_escalate.truthy = true
          · have := hae.2.2.2 he3
            rw [hfty, this.2.1, hpres.2]
            exact hwf1 (by rw [← hpres.1]; exact he3)
          · have := hae.2.2.1 (by simpa using he3)
            rw [hfty, this.2.1]
            decide
        · exfalso
          have := (assess_confidence_with_docs s3 hd).1
          rw [route_after_confidence, this] at hcond
          simp [JValue.truthy] at hcond
      case isFalse hcond =>
        exfalso
        simp only [Except.ok.injEq, Prod.mk.injEq] at hrun
        obtain ⟨hf, ht⟩ := hrun
        simp only [log_analytics] at hf
        have hfesc : f.should_escalate = (assess_confidence s3).should_escalate := by
          rw [← hf]
        apply hcond
        rw [route_after_confidence]
        rw [hfesc] at hesc
        simp [hesc]

/-- Witness for C4: a complex escalation from classification survives to
the final state with a well-formed type. -/
theorem escalation_type_closed_witness :
    runPipeline scnEscalateComplex =
      Except.ok (pipeFinal scnEscalateComplex, pipeTrace scnEscalateComplex) ∧
    (pipeFinal scnEscalateComplex).should_escalate.truthy = true ∧
    (pipeFinal scnEscalateComplex).escalation_type ∈ escKinds ∧
    (pipeFinal scnEscalateComplex).escalation_type ≠ .jstr "" := by
  have h0 : classify_query (initialState scnEscalateComplex)
      scnEscalateComplex.classifier = .ok scnEscalateComplexS1 := by
    show Except.ok _ = _
    simp +decide [scnEscalateComplexS1, scnEscalateComplex, scnEscalateNullType,
      initialState, pyOr, JValue.truthy]
  have hrun : runPipeline scnEscalateComplex =
      Except.ok (pipeFinal scnEscalateComplex, pipeTrace scnEscalateComplex) := by
    norm_num +decide [scnEscalateComplex, scnEscalateNullType, pipeFinal, pipeTrace,
      runPipeline, classify_query, initialState, route_after_classification,
      retrieve_documents, surviveStep, generate_response, assess_confidence,
      route_after_confidence, log_analytics, JValue.truthy, JValue.eqStr, pyOr,
      avgTop3, pyRound3, pymax, contextPart, decimalRepr3, fracDigits,
      escalationFooter, noticeFor, footerMid, refCodePart, strUpper,
      handle_escalation, List.enum, List.enumFrom]
  have hesc : (pipeFinal scnEscalateComplex).should_escalate.truthy = true := by
    norm_num +decide [scnEscalateComplex, scnEscalateNullType, pipeFinal,
      runPipeline, classify_query, initialState, route_after_classification,
      retrieve_documents, surviveStep, generate_response, assess_confidence,
      route_after_confidence, log_analytics, JValue.truthy, JValue.eqStr, pyOr,
      avgTop3, pyRound3, pymax, contextPart, decimalRepr3, fracDigits,
      escalationFooter, noticeFor, footerMid, refCodePart, strUpper,
      handle_escalation, List.enum, List.enumFrom]
  have h := escalation_type_closed scnEscalateComplex
    (pipeFinal scnEscalateComplex) (pipeTrace scnEscalateComplex)
    (by
      intro s1 h htr
      rw [h0] at h
      injection h with h2
      subst h2
      decide)
    hrun hesc
  exact ⟨hrun, hesc, h.1, h.2⟩

/-- Counterexample to C5 as stated: an exception raised by the backend
invocation itself, or backend content parsing to a non-object JSON value,
propagates out of `classify_query` instead of being absorbed. -/
theorem classify_query_raises_cex :
    classify_query (initialState scnEmptyQuery) (.invokeError "APIConnectionError") =
      .error "APIConnectionError" ∧
    classify_query (initialState scnEmptyQuery) .parsedNonObject =
      .error "AttributeError" :=
  ⟨rfl, rfl⟩

/-- Claim C5 (amended: failures of parsing the returned content are
absorbed; invocation errors and non-object JSON are not): on a caught
parse failure `classify_query` returns the safe default — category
`unknown`, a generic intent placeholder, escalate false, empty escalation
type and reason. -/
theorem classify_query_absorbs_parse_failure (s : HRGraphState)
    (o : ClassifierOutcome)
    (hinv : ∀ msg, o ≠ .invokeError msg)
    (hobj : o ≠ .parsedNonObject) :
    ∃ s', classify_query s o = .ok s' ∧
      (o = .parseFailure →
        s'.query_category = .jstr "unknown" ∧
        s'.query_intent = .jstr "Employee query" ∧
        s'.should_escalate = .jbool false ∧
        s'.escalation_type = .jstr "" ∧
        s'.escalation_reason = .jstr "") := by
  cases o with
  | invokeError msg => exact absurd rfl (hinv msg)
  | parsedNonObject => exact absurd rfl hobj
  | parseFailure => exact ⟨_, rfl, fun _ => ⟨rfl, rfl, rfl, rfl, rfl⟩⟩
  | parsed r => exact ⟨_, rfl, fun h => by cases h⟩

/-- Witness for C5: the parse-failure fallback at a concrete state. -/
theorem classify_query_absorbs_parse_failure_witness :
    ∃ s', classify_query (initialState scnEmptyQuery) .parseFailure = .ok s' ∧
      s'.query_category = .jstr "unknown" ∧ s'.should_escalate = .jbool false := by
  obtain ⟨s', h1, h2⟩ :=
    classify_query_absorbs_parse_failure (initialState scnEmptyQuery) .parseFailure
      (fun msg h => by cases h) (fun h => by cases h)
  obtain ⟨hc, _, he, _, _⟩ := h2 rfl
  exact ⟨s', h1, hc, he⟩

/-- Counterexample to C6 as stated: a well-formed backend object with
category `"banana"` and escalate `"yes"` flows through unvalidated — the
stored category is off-enum and the escalate signal is not a boolean. -/
theorem classifier_passthrough_cex :
    ∃ s', classify_query (initialState scn1) (.parsed banana) = .ok s' ∧
      s'.query_category ∉ closedCategories ∧
      (∀ b, s'.should_escalate ≠ .jbool b) := by
  refine ⟨_, rfl, ?_, ?_⟩ <;> decide

/-- Claim C6 (amended: provided the parsed backend object carries a closed
enum category, or none, and a boolean escalate, or none): the stored
category is in the closed enum including `unknown` and the stored escalate
signal is a boolean; parse failure also yields `unknown` and `false`. -/
theorem classify_category_closed (s : HRGraphState) (o : ClassifierOutcome)
    (s' : HRGraphState)
    (hcat : ∀ r c, o = .parsed r → r.category = some c → c ∈ closedCategories)
    (hesc : ∀ r e, o = .parsed r → r.escalate = some e → ∃ b, e = .jbool b)
    (hok : classify_query s o = .ok s') :
    s'.query_category ∈ closedCategories ∧ ∃ b, s'.should_escalate = .jbool b := by
  cases o with
  | invokeError msg => cases hok
  | parsedNonObject => cases hok
  | parseFailure =>
    cases hok
    refine ⟨?_, false, rfl⟩
    show JValue.jstr "unknown" ∈ closedCategories
    decide
  | parsed r =>
    cases hok
    constructor
    · show r.category.getD (.jstr "unknown") ∈ closedCategories
      cases hc : r.category with
      | none => decide
      | some c => simpa using hcat r c rfl hc
    · show ∃ b, r.escalate.getD (.jbool false) = .jbool b
      cases he : r.escalate with
      | none => exact ⟨false, rfl⟩
      | some e =>
        obtain ⟨b, rfl⟩ := hesc r e rfl he
        exact ⟨b, rfl⟩

/-- Witness for C6: a well-formed classifier object keeps the category in
the closed enum and the escalate flag boolean. -/
theorem classify_category_closed_witness :
    ∃ s', classify_query (initialState scn1)
        (.parsed ⟨some (.jstr "leave_policy"), some (.jstr "Leave count"),
                  some (.jbool true), none, none⟩) = .ok s' ∧
      s'.query_category ∈ closedCategories ∧ ∃ b, s'.should_escalate = .jbool b := by
  have h := classify_category_closed (initialState scn1)
    (.parsed ⟨some (.jstr "leave_policy"), some (.jstr "Leave count"),
              some (.jbool true), none, none⟩) _
    (by intro r c hr hc; cases hr; cases hc; decide)
    (by intro r e hr he; cases hr; cases he; exact ⟨true, rfl⟩)
    rfl
  exact ⟨_, rfl, h⟩

/-- Claim C7 (code bug): an empty query with an off-enum role is not
rejected — the full pipeline executes and returns a complete result, where
the claim requires a request rejection before the pipeline starts. -/
theorem empty_query_runs_pipeline :
    (runPipeline scnEmptyQuery).map Prod.snd =
      .ok ["classify_query", "retrieve_documents", "generate_response",
           "assess_confidence", "handle_escalation", "log_analytics"] ∧
    (process_hr_query "" "EMP005" "General" "not_a_role" none "sess-1122-qrst"
        .parseFailure [] "").map
        (fun r => (r.confidence, r.escalated, r.escalation_type)) =
      .ok (0.2, .jbool true, .jstr "policy_gap") := by
  constructor <;>
    norm_num +decide [Except.map, process_hr_query, scnEmptyQuery, runPipeline,
      classify_query, initialState, route_after_classification,
      retrieve_documents, surviveStep, generate_response, assess_confidence,
      route_after_confidence, log_analytics, JValue.truthy, JValue.eqStr, pyOr,
      avgTop3, pyRound3, pymax, contextPart, decimalRepr3, fracDigits,
      escalationFooter, noticeFor, footerMid, refCodePart, strUpper,
      handle_escalation, List.enum, List.enumFrom]

/-- Claim C8: `handle_escalation` preserves a non-empty prior response as a
prefix and appends the footer; an empty prior response is replaced by a
short acknowledgment plus the footer; the footer carries a reference code
equal to the first 8 characters of the session id, upper-cased. -/
theorem handle_escalation_appends_footer (s : HRGraphState) :
    (s.response ≠ "" →
      (handle_escalation s).response =
        s.response ++ escalationFooter s.escalation_type s.session_id) ∧
    (s.response = "" →
      (handle_escalation s).response =
        "Thank you for your query. " ++
          escalationFooter s.escalation_type s.session_id) ∧
    (∃ pre, (handle_escalation s).response =
      pre ++ refCodePart s.session_id) := by
  unfold handle_escalation
  refine ⟨?_, ?_, ?_⟩
  · intro h; simp [h]
  · intro h; simp [h]
  · by_cases h : s.response = ""
    · refine ⟨"Thank you for your query. " ++
        ("\n\n---\n" ++ noticeFor s.escalation_type ++ footerMid), ?_⟩
      simp [h, escalationFooter, String.append_assoc]
    · refine ⟨s.response ++
        ("\n\n---\n" ++ noticeFor s.escalation_type ++ footerMid), ?_⟩
      simp [h, escalationFooter, String.append_assoc]

/-- Witness for C8: the footer is appended to a concrete prior response
and the reference code is the upper-cased 8-character session prefix. -/
theorem handle_escalation_appends_footer_witness :
    (handle_escalation midState).response =
      "Here is the transfer process." ++
        escalationFooter (.jstr "complex") "abcd1234-ef56-7890" ∧
    strUpper ("abcd1234-ef56-7890".take 8) = "ABCD1234" := by
  have h := (handle_escalation_appends_footer midState).1 (by decide)
  exact ⟨h, by decide⟩

/-- Claim C9: the sources list built by `retrieve_documents` has no
duplicates, is the first-seen deduplication of the sources of all entries
surviving the positive-similarity filter, and zero surviving entries give
an empty context and empty sources. -/
theorem retrieve_documents_sources_spec (s : HRGraphState)
    (results : List SearchResult) :
    (retrieve_documents s results).sources.Nodup ∧
    (retrieve_documents s results).sources =
      specFirstSeenDedup ((survivors results).map (fun r => r.source)) ∧
    (survivors results = [] →
      (retrieve_documents s results).context = "" ∧
      (retrieve_documents s results).sources = []) := by
  have hsrc : (retrieve_documents s results).sources =
      specFirstSeenDedup ((survivors results).map (fun r => r.source)) := by
    show (List.foldl surviveStep ([], []) results).2 = _
    rw [surviveFold_snd]
    rw [dedupAppend_eq_spec]
    simp
  refine ⟨hsrc ▸ specFirstSeenDedup_nodup _, hsrc, ?_⟩
  intro hemp
  constructor
  · simp [retrieve_documents, surviveFold_fst, hemp]
  · rw [hsrc, hemp]; simp [specFirstSeenDedup]

/-- Witness for C9: a duplicated source is kept once in first-seen order,
and a batch with no surviving entry gives empty context and sources. -/
theorem retrieve_documents_sources_spec_witness :
    (retrieve_documents (initialState scn1) mixedResults).sources =
      ["leave.md", "handbook.md"] ∧
    (retrieve_documents (initialState scn1) mixedResults).sources.Nodup ∧
    (retrieve_documents (initialState scn1) deadResults).context = "" ∧
    (retrieve_documents (initialState scn1) deadResults).sources = [] := by
  have h1 := retrieve_documents_sources_spec (initialState scn1) mixedResults
  have h2 := (retrieve_documents_sources_spec (initialState scn1) deadResults).2.2
    (by norm_num [survivors, deadResults, List.filter_cons])
  refine ⟨?_, h1.1, h2.1, h2.2⟩
  rw [h1.2.1]
  norm_num [survivors, mixedResults, specFirstSeenDedup, List.filter_cons]
  simp +decide [specFirstSeenDedup]

/-- Claim C10: after `assess_confidence`, a truthy `should_escalate`
implies the evidence list was empty and the confidence is 0.2; the
confidence-triggered escalation branch fires only on empty evidence, and
`assess_confidence` never assigns the `low_confidence` type. -/
theorem assess_confidence_escalation_only_policy_gap (s : HRGraphState) :
    ((assess_confidence s).should_escalate.truthy = true →
      s.retrieved_docs = [] ∧ (assess_confidence s).confidence_score = 0.2) ∧
    (route_after_confidence (assess_confidence s) = "handle_escalation" →
      s.retrieved_docs = []) ∧
    ((assess_confidence s).escalation_type = s.escalation_type ∨
      (assess_confidence s).escalation_type = .jstr "policy_gap") := by
  unfold assess_confidence route_after_confidence
  by_cases hd : s.retrieved_docs = []
  · by_cases he : s.should_escalate.truthy = true
    · simp [hd, he]
    · simp [hd, he]
  · simp [hd, JValue.truthy]

/-- Witness for C10: assessing an empty-evidence state escalates with the
policy-gap type and confidence 0.2. -/
theorem assess_confidence_escalation_only_policy_gap_witness :
    (assess_confidence (initialState scnNoDocs)).should_escalate.truthy = true ∧
    (initialState scnNoDocs).retrieved_docs = [] ∧
    (assess_confidence (initialState scnNoDocs)).confidence_score = 0.2 ∧
    (assess_confidence (initialState scnNoDocs)).escalation_type = .jstr "policy_gap" := by
  have h := (assess_confidence_escalation_only_policy_gap (initialState scnNoDocs)).1
    (by decide)
  refine ⟨by decide, h.1, h.2, by decide⟩
